import Mathlib

/-!
Verification of the car_stereo repository (ESP32 head-unit input pipeline and
mode state machine) against its natural-language specification.

The development shallowly embeds the two core C modules:

* `src/main/buttons.c` — the ADC threshold button decoder, the quadrature
  rotary-encoder ISR with its Gray-code transition table, and the periodic
  long-press monitor task.  Interrupt/task interleavings are modelled as
  explicit action sequences over the module's mutable state.
* `src/main/car_stereo_state.c` — the mode state machine.  The module's
  global mutable state becomes an explicit `StereoState`; each public entry
  point becomes a function `... → StereoState → StereoState × List Effect`
  where `Effect` records the side effects performed on the external
  collaborators (display handler, NVS persistence, audio stack, mode-change
  callback).  Effects are recorded as if the optional `display_handler` and
  `on_mode_change` callbacks are configured, which is the discriminating case
  for the claims about notifications.

Numeric conventions: C `uint8_t`/`int`/`uint16_t` quantities that never
overflow on the reachable values are modelled as `Nat`/`Int`; `float`
frequencies are modelled as `Rat` (they are only stored, copied and compared
in the verified paths, never iterated arithmetically, so exact rationals are
a faithful abstraction of the stored values).  `ESP_LOG*` calls produce no
effect in the model: they are debug logging, not user-visible output.
-/

namespace CarStereo

/-- Button identities from `buttons.h` (`button_id_t`).  `noButton` is
`BTN_NONE` (0xFF), the value the ADC decoder reports when no band matches. -/
inductive ButtonId
  | rotary
  | bandUM
  | bandVF
  | station1
  | station2
  | station3
  | station4
  | station5
  | down
  | up
  | noButton
  deriving DecidableEq, Repr

/-- Button event kinds from `buttons.h` (`button_event_type_t`). -/
inductive ButtonEventType
  | press
  | release
  | longPress
  | releaseAfterLong
  | repeated
  | rotaryCW
  | rotaryCCW
  deriving DecidableEq, Repr

/-- A normalised button event (`button_event_t`).  The C struct also carries a
`timestamp` field, but nothing in the repository ever writes or reads it, so
it is omitted. -/
structure ButtonEvent where
  button : ButtonId
  event : ButtonEventType
  deriving DecidableEq, Repr

/-! ## Threshold button decoder (`buttons.c`) -/

/-- `button_thresholds` from `buttons.c`: centre ADC counts of the nine
resistor-ladder buttons. -/
def button_thresholds : List Nat :=
  [201, 346, 757, 1425, 2204, 2830, 3450, 3920, 4095]

/-- `THRESHOLD_TOLERANCE` (±40 ADC counts). -/
def THRESHOLD_TOLERANCE : Nat := 40

/-- `NUM_BUTTONS` (9 ladder buttons). -/
def NUM_BUTTONS : Nat := 9

/-- `ADC_SAMPLES`: the decoder averages 4 raw readings. -/
def ADC_SAMPLES : Nat := 4

/-- Numeric codes of `button_id_t` as used by the decoder's `(button_id_t)(i + 1)`
cast (the ladder buttons are codes 1..9; code 0 is the rotary button). -/
def button_of_code : Nat → ButtonId
  | 0 => .rotary
  | 1 => .bandUM
  | 2 => .bandVF
  | 3 => .station1
  | 4 => .station2
  | 5 => .station3
  | 6 => .station4
  | 7 => .station5
  | 8 => .down
  | 9 => .up
  | _ => .noButton

/-- The averaging loop of `adc_read_button`: each of the `ADC_SAMPLES`
iterations performs one ADC read that either succeeds with a raw value or
fails (`adc_oneshot_read` not `ESP_OK`), in which case nothing is added to
the sum.  The raw sample sequence is the function's input in this model. -/
def adc_sum (reads : List (Option Nat)) : Nat :=
  (reads.take ADC_SAMPLES).foldl (fun acc r => acc + r.getD 0) 0

/-- The threshold-matching loop of `adc_read_button` (buttons.c lines
176-186): first band containing the averaged reading wins.  In the observed
source this loop is dead code — the unconditional `return BTN_NONE;` at line
173 precedes it — but it is embedded here as written. -/
def adc_match_button (adc_reading : Nat) : ButtonId :=
  match (List.range NUM_BUTTONS).find? (fun i =>
      let t := button_thresholds.getD i 0
      decide (t - THRESHOLD_TOLERANCE ≤ adc_reading ∧
              adc_reading ≤ t + THRESHOLD_TOLERANCE)) with
  | some i => button_of_code (i + 1)
  | none => ButtonId.noButton

/-- `adc_read_button` from `buttons.c`: averages the samples, reports
`BTN_NONE` below the noise floor (reading < 100), and then — in the observed
source — hits the unconditional `return BTN_NONE;` at line 173 before the
threshold-matching loop (`adc_match_button`) can run. -/
def adc_read_button (reads : List (Option Nat)) : ButtonId :=
  let adc_reading := adc_sum reads / ADC_SAMPLES
  if adc_reading < 100 then
    ButtonId.noButton
  else
    ButtonId.noButton

/-! ## Quadrature rotary decoder and long-press monitor (`buttons.c`) -/

/-- `ROTARY_DEBOUNCE_MS` (5 ms refractory window for encoder edges). -/
def ROTARY_DEBOUNCE_MS : Nat := 5

/-- `DEBOUNCE_MS` (50 ms minimum press duration). -/
def DEBOUNCE_MS : Nat := 50

/-- `LONG_PRESS_THRESHOLD_MS` (1000 ms). -/
def LONG_PRESS_THRESHOLD_MS : Nat := 1000

/-- `rotary_transition_table` from `buttons.c` lines 64-69, kept as data:
rows are the previous 2-bit phase state, columns the new one; entries are
0 = no movement, 1 = CW, -1 = CCW. -/
def rotary_transition_table : List (List Int) :=
  [[0, -1, 1, 0],
   [1, 0, 0, -1],
   [-1, 0, 0, 1],
   [0, 1, -1, 0]]

/-- Table lookup `rotary_transition_table[prev][new]`. -/
def rotary_dir (prev next : Fin 4) : Int :=
  (rotary_transition_table.getD prev.val []).getD next.val 0

/-- The 2-bit phase code `(clk_state << 1) | dt_state` built from the two
encoder line levels (`true` = line reads high). -/
def encodePhase (clk dt : Bool) : Fin 4 :=
  if clk then (if dt then 3 else 2) else (if dt then 1 else 0)

/-- The mutable module state of the rotary decoder in `buttons.c`
(`g_last_rotary_time`, `g_rotary_press_start`, `g_rotary_pressed`,
`g_long_press_sent`, `g_encoder_state`, `g_encoder_position`).  Times are in
milliseconds; `encoder_position` is an `int8_t` in C but only ever reaches
the values -1..1 between detent resets, so `Int` is a faithful model. -/
structure RotaryState where
  last_rotary_time : Nat
  rotary_press_start : Nat
  rotary_pressed : Bool
  long_press_sent : Bool
  encoder_state : Fin 4
  encoder_position : Int
  deriving DecidableEq, Repr

/-- The reset state of the decoder (globals' initialisers in `buttons.c`):
encoder at the rest position `ENC_STATE_11`. -/
def rotaryInitState : RotaryState :=
  { last_rotary_time := 0
    rotary_press_start := 0
    rotary_pressed := false
    long_press_sent := false
    encoder_state := 3
    encoder_position := 0 }

/-- `rotary_encoder_isr` from `buttons.c`: one ISR firing, given the current
tick time and the levels read from the switch, CLK and DT lines (`true` =
high).  Returns the updated decoder state and the events enqueued by this
firing.  The C debounce subtraction is on `uint32_t`; tick times are
monotonic naturals here, for which truncated subtraction agrees. -/
def rotary_encoder_isr (s : RotaryState) (now : Nat) (sw clk dt : Bool) :
    RotaryState × List ButtonEvent :=
  if now - s.last_rotary_time < ROTARY_DEBOUNCE_MS then
    (s, [])
  else if sw = false ∧ clk = true ∧ dt = true then
    -- button pressed while the encoder is at rest
    if s.rotary_pressed then (s, [])
    else
      ({ s with rotary_press_start := now, rotary_pressed := true,
                long_press_sent := false, encoder_position := 0 }, [])
  else if sw = true ∧ s.rotary_pressed = true ∧ clk = true ∧ dt = true then
    -- button released
    let press_duration := now - s.rotary_press_start
    let s1 := { s with rotary_pressed := false }
    if LONG_PRESS_THRESHOLD_MS ≤ press_duration then
      (s1, [⟨ButtonId.rotary, ButtonEventType.releaseAfterLong⟩])
    else if DEBOUNCE_MS < press_duration then
      (s1, [⟨ButtonId.rotary, ButtonEventType.press⟩])
    else
      (s1, [])
  else
    -- rotary turn decoding on clk/dt edges
    let new_state := encodePhase clk dt
    let direction := rotary_dir s.encoder_state new_state
    let s1 := { s with encoder_state := new_state }
    if direction ≠ 0 then
      let pos := s1.encoder_position + direction
      let s2 := { s1 with encoder_position := pos, last_rotary_time := now }
      if 2 ≤ pos then
        ({ s2 with encoder_position := 0 }, [⟨ButtonId.rotary, ButtonEventType.rotaryCW⟩])
      else if pos ≤ -2 then
        ({ s2 with encoder_position := 0 }, [⟨ButtonId.rotary, ButtonEventType.rotaryCCW⟩])
      else
        (s2, [])
    else
      (s1, [])

/-- One iteration of `button_long_press_monitor_task` from `buttons.c`: the
100 ms watchdog that fires `BTN_EVENT_LONG_PRESS` once per press when the
encoder button has been held past the threshold. -/
def button_long_press_monitor_check (s : RotaryState) (now : Nat) :
    RotaryState × List ButtonEvent :=
  if s.rotary_pressed = true ∧ s.long_press_sent = false then
    if LONG_PRESS_THRESHOLD_MS ≤ now - s.rotary_press_start then
      ({ s with long_press_sent := true },
       [⟨ButtonId.rotary, ButtonEventType.longPress⟩])
    else
      (s, [])
  else
    (s, [])

/-- An execution step of the rotary module: either an ISR firing (with the
pin levels it reads) or one check of the periodic long-press monitor.  The
two run in different contexts but their interleaving is sequentially
consistent on the shared flags, which this action list models. -/
inductive RotaryAction
  | isr (now : Nat) (sw clk dt : Bool)
  | monitor (now : Nat)
  deriving DecidableEq, Repr

/-- Apply one action to the rotary module state. -/
def rotaryStep (s : RotaryState) : RotaryAction → RotaryState × List ButtonEvent
  | .isr now sw clk dt => rotary_encoder_isr s now sw clk dt
  | .monitor now => button_long_press_monitor_check s now

/-- Run a sequence of rotary module actions, concatenating emitted events. -/
def runRotary : RotaryState → List RotaryAction → RotaryState × List ButtonEvent
  | s, [] => (s, [])
  | s, a :: rest =>
    let r1 := rotaryStep s a
    let r2 := runRotary r1.1 rest
    (r2.1, r1.2 ++ r2.2)

/-- Number of `LongPress` events in an event list. -/
def countLongPress (evs : List ButtonEvent) : Nat :=
  evs.countP (fun e => decide (e.event = ButtonEventType.longPress))

/-- Whether an action activates the press-start branch of the ISR (the only
place that resets the `g_long_press_sent` latch). -/
def isrPressStart (s : RotaryState) : RotaryAction → Bool
  | .isr now sw clk dt =>
      !(decide (now - s.last_rotary_time < ROTARY_DEBOUNCE_MS)) &&
      (!sw && clk && dt) && !s.rotary_pressed
  | .monitor _ => false

/-- Number of press-start activations along a run. -/
def countPressStarts : RotaryState → List RotaryAction → Nat
  | _, [] => 0
  | s, a :: rest =>
    (if isrPressStart s a then 1 else 0) + countPressStarts (rotaryStep s a).1 rest

/-- The long-press budget of a state: 1 while a press is in progress whose
long press has not been signalled yet, 0 otherwise. -/
def lpBudget (s : RotaryState) : Nat :=
  if s.rotary_pressed = true ∧ s.long_press_sent = false then 1 else 0

/-! ## Mode state machine (`car_stereo_state.c`) -/

/-- Operating modes from `car_stereo_state.h` (`stereo_mode_t`). -/
inductive StereoMode
  | off
  | radio
  | bluetooth
  | phoneCall
  | phonebook
  deriving DecidableEq, Repr

/-- Radio bands from `car_stereo_state.h` (`radio_band_t`). -/
inductive RadioBand
  | fm
  | am
  deriving DecidableEq, Repr

/-- Display notification kinds (`display_notification_type_t`). -/
inductive DisplayKind
  | radioStation
  | radioSong
  | btTrack
  | btArtist
  | btAlbum
  | callIncoming
  | callActive
  | phonebookContact
  | volume
  | frequency
  | modeChange
  deriving DecidableEq, Repr

/-- A display notification record (`display_notification_t`).  The C struct
truncates `text` to 127 and `subtext` to 63 bytes via `strncpy`; the strings
built by this module are all far shorter, so truncation is not modelled.  A
NULL text or subtext pointer is modelled as the empty string. -/
structure DisplayNotice where
  kind : DisplayKind
  text : String
  subtext : String
  duration_ms : Nat
  priority : Nat
  deriving DecidableEq, Repr

/-- Targets of the Bluetooth volume-change notification
(`bt_volume_target_t`).  `other` stands for any further enum value handled by
the C `default:` case. -/
inductive BtVolumeTarget
  | a2dp
  | hfpSpeaker
  | hfpMic
  | other
  deriving DecidableEq, Repr

/-- A side effect performed on an external collaborator: a display
notification, an NVS save, the mode-change callback, or a one-way call into
the `a2dpSinkHfpHf` audio stack. -/
inductive Effect
  | display (n : DisplayNotice)
  | saveToNvs
  | modeChangeCb (oldMode newMode : StereoMode)
  | setA2dpVolume (v : Nat)
  | setHfpSpeakerVolume (v : Nat)
  | setHfpMicVolume (v : Nat)
  | avrcPlay
  | avrcPause
  | avrcNext
  | avrcPrev
  | answerCall
  | hangupCall
  | voiceRecognitionStartCall
  | voiceRecognitionStopCall
  deriving DecidableEq, Repr

/-- `radio_state_t`: frequency, volume, band, per-band presets and RDS text.
Presets are indexed `[band][0..4]` as in the C two-dimensional array. -/
structure RadioData where
  frequency : Rat
  volume : Nat
  band : RadioBand
  preset_freq : RadioBand → Nat → Rat
  station_name : String
  song_info : String

/-- `a2dp_state_t`. -/
structure A2dpData where
  volume : Nat
  playing : Bool
  track : String
  artist : String
  album : String
  deriving DecidableEq, Repr

/-- `hfp_state_t`. -/
structure HfpData where
  speaker_volume : Nat
  mic_volume : Nat
  call_active : Bool
  caller_id : String
  deriving DecidableEq, Repr

/-- The module-level mutable state of `car_stereo_state.c` that the claims
touch: `g_powered_on`, `g_current_mode`, `g_mode_before_call`,
`g_mode_before_phonebook`, `g_radio_state`, `g_a2dp_state`, `g_hfp_state`,
`g_current_band`, the station-browsing sub-state, the tune-timer handle
(modelled as an armed flag), `g_voice_recognition_active` and `g_caller_id`.
The per-device Bluetooth settings table and the phonebook placeholder state
are omitted: no verified operation touches them. -/
structure StereoState where
  powered_on : Bool
  current_mode : StereoMode
  mode_before_call : StereoMode
  mode_before_phonebook : StereoMode
  radio : RadioData
  a2dp : A2dpData
  hfp : HfpData
  current_band : RadioBand
  browsing_stations : Bool
  browsing_station_idx : Nat
  browsing_station_freq : Rat
  tune_timer_armed : Bool
  voice_recognition_active : Bool
  caller_id : String

/-- `STATION_TUNE_DELAY_MS`. -/
def STATION_TUNE_DELAY_MS : Nat := 2000

/-- Render a frequency the way `snprintf` with a one-decimal float format
does for the nonnegative values this module produces: round to the nearest
tenth and print one decimal digit. -/
def fmt1 (f : Rat) : String :=
  let n : Int := (f * 10 + 1 / 2).floor
  toString (n / 10) ++ "." ++ toString (n % 10)

/-- The C `(uint8_t)` cast applied to a nonnegative float expression:
truncate toward zero, reduce modulo 256 (values outside `uint8_t` range are
undefined behaviour in C; the wraparound chosen here matches the common
hardware behaviour and is never relied on by a theorem). -/
def ratToU8 (q : Rat) : Nat := q.floor.toNat % 256

/-- `station_tune_timer_callback` (after its delay): commit the browsed
frequency only if station browsing is still active when the timer fires,
then clear the timer handle. -/
def station_tune_timer_fire (s : StereoState) : StereoState × List Effect :=
  if s.browsing_stations then
    ({ s with radio.frequency := s.browsing_station_freq,
              browsing_stations := false,
              tune_timer_armed := false },
     [Effect.display ⟨.frequency, fmt1 s.browsing_station_freq ++ " MHz", "Tuned", 2000, 100⟩,
      Effect.saveToNvs])
  else
    ({ s with tune_timer_armed := false }, [])

/-- `start_station_tune_timer`: kill any pending timer task and start a new
one (modelled by the armed flag). -/
def start_station_tune_timer (s : StereoState) : StereoState :=
  { s with tune_timer_armed := true }

/-- Map the five station-preset buttons to their slot index, mirroring the C
range test `BTN_STATION_1 <= b && b <= BTN_STATION_5` and the subtraction
`b - BTN_STATION_1`. -/
def stationIndex : ButtonId → Option Nat
  | .station1 => some 0
  | .station2 => some 1
  | .station3 => some 2
  | .station4 => some 3
  | .station5 => some 4
  | _ => none

/-- Update one preset slot of the two-dimensional preset array. -/
def setPreset (p : RadioBand → Nat → Rat) (b : RadioBand) (i : Nat) (v : Rat) :
    RadioBand → Nat → Rat :=
  fun b2 i2 => if b2 = b ∧ i2 = i then v else p b2 i2

/-- `handle_radio_mode` from `car_stereo_state.c`. -/
def handle_radio_mode (s : StereoState) (event : ButtonEvent) :
    StereoState × List Effect :=
  match event.event with
  | .rotaryCW =>
    if s.browsing_stations then
      let idx := (s.browsing_station_idx + 1) % 20
      let freq : Rat := 87.5 + (idx : Rat) * 0.2
      (start_station_tune_timer
        { s with browsing_station_idx := idx, browsing_station_freq := freq },
       [Effect.display ⟨.frequency, fmt1 freq ++ " MHz", "Browsing", 0, 150⟩])
    else
      let vol := if s.radio.volume < 15 then s.radio.volume + 1 else s.radio.volume
      ({ s with radio.volume := vol },
       [Effect.display ⟨.volume, toString vol, "Radio", 1000, 120⟩, Effect.saveToNvs])
  | .rotaryCCW =>
    if s.browsing_stations then
      let idx := if s.browsing_station_idx = 0 then 19 else s.browsing_station_idx - 1
      let freq : Rat := 87.5 + (idx : Rat) * 0.2
      (start_station_tune_timer
        { s with browsing_station_idx := idx, browsing_station_freq := freq },
       [Effect.display ⟨.frequency, fmt1 freq ++ " MHz", "Browsing", 0, 150⟩])
    else
      let vol := if 0 < s.radio.volume then s.radio.volume - 1 else s.radio.volume
      ({ s with radio.volume := vol },
       [Effect.display ⟨.volume, toString vol, "Radio", 1000, 120⟩, Effect.saveToNvs])
  | .press =>
    if event.button = .rotary ∧ s.browsing_stations = false then
      (s, [Effect.display ⟨.frequency, fmt1 s.radio.frequency ++ " MHz",
             if s.current_band = .fm then "FM" else "AM", 2000, 130⟩])
    else
      (s, [])
  | .release =>
    match stationIndex event.button with
    | some idx =>
      let freq := s.radio.preset_freq s.current_band idx
      if 0 < freq then
        ({ s with radio.frequency := freq },
         [Effect.display ⟨.frequency,
            "Station " ++ toString (idx + 1) ++ ": " ++ fmt1 freq ++ " MHz", "", 2000, 130⟩,
          Effect.saveToNvs])
      else
        (s, [])
    | none =>
      if event.button = .up then
        (s, [Effect.display ⟨.modeChange, "Seeking Up", "", 1000, 110⟩])
      else if event.button = .down then
        (s, [Effect.display ⟨.modeChange, "Seeking Down", "", 1000, 110⟩])
      else if event.button = .rotary then
        if s.browsing_stations then
          ({ s with browsing_stations := false }, [])
        else
          let bfreq := s.radio.frequency
          ({ s with browsing_stations := true,
                    browsing_station_freq := bfreq,
                    browsing_station_idx := ratToU8 ((bfreq - 87.5) / 0.2) },
           [Effect.display ⟨.frequency, fmt1 bfreq ++ " MHz", "Browse Mode", 0, 150⟩])
      else
        (s, [])
  | .longPress =>
    match stationIndex event.button with
    | some idx =>
      ({ s with radio.preset_freq :=
           setPreset s.radio.preset_freq s.current_band idx s.radio.frequency },
       [Effect.display ⟨.frequency, "Station " ++ toString (idx + 1) ++ " Saved", "", 2000, 140⟩,
        Effect.saveToNvs])
    | none => (s, [])
  | .repeated => (s, [])
  | .releaseAfterLong => (s, [])

/-- `handle_bluetooth_mode` from `car_stereo_state.c`.  Note that the rotate
cases emit the display/audio-stack/save side effects unconditionally, only
the increment itself being clamped. -/
def handle_bluetooth_mode (s : StereoState) (event : ButtonEvent) :
    StereoState × List Effect :=
  match event.event with
  | .press => (s, [])
  | .rotaryCW =>
    let vol := if s.a2dp.volume < 15 then s.a2dp.volume + 1 else s.a2dp.volume
    ({ s with a2dp.volume := vol },
     [Effect.display ⟨.volume, toString vol, "Bluetooth", 1000, 120⟩,
      Effect.setA2dpVolume vol, Effect.saveToNvs])
  | .rotaryCCW =>
    let vol := if 0 < s.a2dp.volume then s.a2dp.volume - 1 else s.a2dp.volume
    ({ s with a2dp.volume := vol },
     [Effect.display ⟨.volume, toString vol, "Bluetooth", 1000, 120⟩,
      Effect.setA2dpVolume vol, Effect.saveToNvs])
  | .release =>
    if event.button = .rotary then
      if s.a2dp.playing then
        ({ s with a2dp.playing := false },
         [Effect.avrcPause, Effect.display ⟨.modeChange, "Paused", "", 1000, 110⟩])
      else
        ({ s with a2dp.playing := true },
         [Effect.avrcPlay, Effect.display ⟨.modeChange, "Playing", "", 1000, 110⟩])
    else if event.button = .up then
      (s, [Effect.avrcNext, Effect.display ⟨.modeChange, "Next Track", "", 1000, 110⟩])
    else if event.button = .down then
      (s, [Effect.avrcPrev, Effect.display ⟨.modeChange, "Previous Track", "", 1000, 110⟩])
    else
      (s, [])
  | .longPress => (s, [])
  | .releaseAfterLong => (s, [])
  | .repeated =>
    if event.button = .up ∨ event.button = .down then
      let vol :=
        if event.button = .up ∧ s.a2dp.volume < 15 then s.a2dp.volume + 1
        else if event.button = .down ∧ 0 < s.a2dp.volume then s.a2dp.volume - 1
        else s.a2dp.volume
      ({ s with a2dp.volume := vol },
       [Effect.display ⟨.volume, toString vol, "Bluetooth", 1000, 120⟩,
        Effect.setA2dpVolume vol, Effect.saveToNvs])
    else
      (s, [])

/-- `handle_phone_call_mode` from `car_stereo_state.c`.  As in the source,
the rotate cases mutate `g_a2dp_state.volume` (guard included) while passing
the unchanged `g_hfp_state.speaker_volume` to the HFP speaker-volume call. -/
def handle_phone_call_mode (s : StereoState) (event : ButtonEvent) :
    StereoState × List Effect :=
  match event.event with
  | .release => (s, [])
  | .longPress => (s, [])
  | .rotaryCW =>
    if s.a2dp.volume < 15 then
      let vol := s.a2dp.volume + 1
      ({ s with a2dp.volume := vol },
       [Effect.display ⟨.volume, toString vol, "Call Volume", 1000, 200⟩,
        Effect.setHfpSpeakerVolume s.hfp.speaker_volume])
    else
      (s, [])
  | .rotaryCCW =>
    if 0 < s.a2dp.volume then
      let vol := s.a2dp.volume - 1
      ({ s with a2dp.volume := vol },
       [Effect.display ⟨.volume, toString vol, "Call Volume", 1000, 200⟩,
        Effect.setHfpSpeakerVolume s.hfp.speaker_volume])
    else
      (s, [])
  | .press =>
    if event.button = .rotary then
      ({ s with current_mode := s.mode_before_call },
       [Effect.hangupCall,
        Effect.display ⟨.callActive, "Call Ended", "", 2000, 250⟩,
        Effect.modeChangeCb .phoneCall s.mode_before_call,
        Effect.saveToNvs])
    else
      (s, [])
  | .releaseAfterLong => (s, [])
  | .repeated => (s, [])

/-- `handle_phonebook_mode`: a placeholder that does nothing. -/
def handle_phonebook_mode (s : StereoState) (_event : ButtonEvent) :
    StereoState × List Effect :=
  (s, [])

/-- `on_bt_volume_changed`: the asynchronous volume-change notification from
the audio stack.  The received value is assigned to the matching state field
as-is (no clamping in the source) and echoed on the display. -/
def on_bt_volume_changed (s : StereoState) (target : BtVolumeTarget)
    (new_volume : Nat) : StereoState × List Effect :=
  match target with
  | .a2dp =>
    ({ s with a2dp.volume := new_volume },
     [Effect.display ⟨.volume, toString new_volume, "Bluetooth", 1000, 120⟩])
  | .hfpSpeaker =>
    ({ s with hfp.speaker_volume := new_volume },
     [Effect.display ⟨.volume, toString new_volume, "Call Volume", 1000, 120⟩])
  | .hfpMic =>
    ({ s with hfp.mic_volume := new_volume },
     [Effect.display ⟨.volume, toString new_volume, "Mic Volume", 1000, 120⟩])
  | .other =>
    (s, [Effect.display ⟨.volume, toString new_volume, "Volume", 1000, 120⟩])

/-- The factory presets installed by `stereo_state_init`. -/
def defaultPresets : RadioBand → Nat → Rat := fun b i =>
  match b, i with
  | .fm, 0 => 87.9
  | .fm, 1 => 95.3
  | .fm, 2 => 101.1
  | .fm, 3 => 105.7
  | .fm, 4 => 107.9
  | .am, 0 => 540
  | .am, 1 => 720
  | .am, 2 => 950
  | .am, 3 => 1200
  | .am, 4 => 1450
  | _, _ => 0

/-- The state established by `stereo_state_init` when NVS holds no saved
state (the load falls back to the documented defaults, `g_powered_on =
false`, `g_current_mode = MODE_OFF`, and the final restore step then forces
the mode to `MODE_OFF` again). -/
def stereo_state_init : StereoState :=
  { powered_on := false
    current_mode := .off
    mode_before_call := .radio
    mode_before_phonebook := .radio
    radio :=
      { frequency := 87.5
        volume := 10
        band := .fm
        preset_freq := defaultPresets
        station_name := ""
        song_info := "" }
    a2dp := { volume := 10, playing := false, track := "", artist := "", album := "" }
    hfp := { speaker_volume := 12, mic_volume := 10, call_active := false, caller_id := "" }
    current_band := .fm
    browsing_stations := false
    browsing_station_idx := 0
    browsing_station_freq := 87.5
    tune_timer_armed := false
    voice_recognition_active := false
    caller_id := "" }

/-- `stereo_state_handle_button`: the two-tiered dispatch.  `ext_ok` is the
`esp_err_t` outcome of the voice-recognition start/stop call into the audio
stack, supplied as an oracle input (`true` = `ESP_OK`). -/
def stereo_state_handle_button (ext_ok : Bool) (event : ButtonEvent)
    (s : StereoState) : StereoState × List Effect :=
  if event.button = .rotary ∧ event.event = .press then
    -- power control: short press on the rotary button only
    if s.current_mode = .off then
      ({ s with powered_on := true, current_mode := .radio },
       [Effect.display ⟨.modeChange, "Power ON", "", 1500, 150⟩,
        Effect.saveToNvs, Effect.modeChangeCb .off .radio])
    else
      ({ s with powered_on := false, current_mode := .off },
       [Effect.display ⟨.modeChange, "Power OFF", "", 1000, 150⟩,
        Effect.saveToNvs, Effect.modeChangeCb s.current_mode .off])
  else if event.button = .bandUM ∧ event.event = .press then
    -- button 1: start voice recognition
    if s.voice_recognition_active = false ∧
        (s.current_mode = .bluetooth ∨ s.current_mode = .radio) then
      if ext_ok then
        ({ s with voice_recognition_active := true },
         [Effect.voiceRecognitionStartCall,
          Effect.display ⟨.modeChange, "Voice Assistant", "Listening...", 0, 200⟩])
      else
        (s, [Effect.voiceRecognitionStartCall,
             Effect.display ⟨.modeChange, "Voice Assistant", "Failed to Start", 2000, 200⟩])
    else
      -- already active, or not in Radio/Bluetooth mode: log only, no effects
      (s, [])
  else if event.button = .bandVF ∧ event.event = .press then
    -- button 2: stop voice recognition
    if s.voice_recognition_active then
      if ext_ok then
        ({ s with voice_recognition_active := false },
         [Effect.voiceRecognitionStopCall,
          Effect.display ⟨.modeChange, "Voice Assistant", "Stopped", 1500, 180⟩])
      else
        (s, [Effect.voiceRecognitionStopCall])
    else
      (s, [])
  else if s.current_mode = .off then
    -- system off: ignore all other buttons/events
    (s, [])
  else
    match s.current_mode with
    | .bluetooth => handle_bluetooth_mode s event
    | .radio => handle_radio_mode s event
    | .phoneCall => handle_phone_call_mode s event
    | .phonebook => handle_phonebook_mode s event
    | .off => (s, [])

/-- `stereo_state_set_power`. -/
def stereo_state_set_power (turn_on : Bool) (s : StereoState) :
    StereoState × List Effect :=
  if turn_on = s.powered_on then
    (s, [])
  else if turn_on then
    ({ s with powered_on := turn_on, current_mode := .radio },
     [Effect.display ⟨.modeChange, "Power ON", "Welcome", 2000, 200⟩,
      Effect.saveToNvs, Effect.modeChangeCb .off .radio])
  else
    ({ s with powered_on := turn_on, current_mode := .off },
     [Effect.display ⟨.modeChange, "Power OFF", "Goodbye", 2000, 200⟩,
      Effect.saveToNvs, Effect.modeChangeCb .off .off])

/-- Mode names used by `stereo_state_set_mode` for display. -/
def mode_name : StereoMode → String
  | .off => "OFF"
  | .radio => "RADIO"
  | .bluetooth => "BLUETOOTH"
  | .phoneCall => "PHONE_CALL"
  | .phonebook => "PHONEBOOK"

/-- `stereo_state_set_mode`: switches the mode unconditionally (no power
adjustment), with display/save/callback effects unless it is a self-switch. -/
def stereo_state_set_mode (mode : StereoMode) (s : StereoState) :
    StereoState × List Effect :=
  if mode = s.current_mode then
    (s, [])
  else
    ({ s with current_mode := mode },
     [Effect.display ⟨.modeChange, mode_name mode, "", 2000, 150⟩,
      Effect.saveToNvs, Effect.modeChangeCb s.current_mode mode])

/-- `auto_power_on_if_off`. -/
def auto_power_on_if_off (target : StereoMode) (reason : String)
    (s : StereoState) : StereoState × List Effect :=
  if s.powered_on then
    if s.current_mode ≠ target ∧ s.current_mode ≠ .phoneCall then
      ({ s with current_mode := target },
       [Effect.display ⟨.modeChange,
          (if target = .bluetooth then "Bluetooth" else "Phone Call"), reason, 1500, 180⟩,
        Effect.saveToNvs, Effect.modeChangeCb s.current_mode target])
    else
      (s, [])
  else
    ({ s with powered_on := true, current_mode := target },
     [Effect.display ⟨.modeChange, "Auto Power ON", reason, 2000, 200⟩,
      Effect.saveToNvs, Effect.modeChangeCb .off target])

/-- `stereo_state_hfp_call_status`.  `caller` is the optional caller-id
string (NULL modelled as `none`).  Note that the auto-power-on path does not
record a pre-call mode: `g_mode_before_call` keeps its previous value. -/
def stereo_state_hfp_call_status (call_active : Bool) (caller : Option String)
    (s : StereoState) : StereoState × List Effect :=
  if call_active = true ∧ s.current_mode ≠ .phoneCall then
    let cid := caller.getD "Unknown Caller"
    let s0 := { s with caller_id := cid }
    let r1 :=
      if s0.powered_on = false then
        auto_power_on_if_off .phoneCall "Incoming Call" s0
      else
        let mbc := if s0.current_mode = .phonebook then s0.mode_before_phonebook
                   else s0.current_mode
        ({ s0 with mode_before_call := mbc, current_mode := .phoneCall },
         [Effect.modeChangeCb mbc .phoneCall])
    (r1.1, r1.2 ++
      [Effect.display ⟨.callIncoming, cid, "Press to answer", 0, 255⟩,
       Effect.answerCall,
       Effect.display ⟨.callActive, cid, "Connected", 0, 250⟩])
  else if call_active = false ∧ s.current_mode = .phoneCall then
    ({ s with current_mode := s.mode_before_call },
     [Effect.display ⟨.callActive, "Call Ended", "", 2000, 200⟩,
      Effect.modeChangeCb .phoneCall s.mode_before_call,
      Effect.saveToNvs])
  else
    (s, [])

/-- `stereo_state_a2dp_streaming`. -/
def stereo_state_a2dp_streaming (streaming : Bool) (s : StereoState) :
    StereoState × List Effect :=
  let s0 := { s with a2dp.playing := streaming }
  if streaming then
    auto_power_on_if_off .bluetooth "Music Playing" s0
  else
    (s0, [])

/-- An invocation of one public operation of the mode state machine
(together with the asynchronous inputs that feed the same machine: the
audio-stack volume notification and the firing of the station-tune timer). -/
inductive StereoOp
  | handleButton (ext_ok : Bool) (e : ButtonEvent)
  | setPower (turn_on : Bool)
  | setMode (m : StereoMode)
  | hfpCallStatus (call_active : Bool) (caller : Option String)
  | a2dpStreaming (streaming : Bool)
  | btVolumeChanged (target : BtVolumeTarget) (v : Nat)
  | tuneTimerFire

/-- Apply one operation to the state machine. -/
def stereoStep : StereoOp → StereoState → StereoState × List Effect
  | .handleButton ext_ok e, s => stereo_state_handle_button ext_ok e s
  | .setPower b, s => stereo_state_set_power b s
  | .setMode m, s => stereo_state_set_mode m s
  | .hfpCallStatus a c, s => stereo_state_hfp_call_status a c s
  | .a2dpStreaming b, s => stereo_state_a2dp_streaming b s
  | .btVolumeChanged t v, s => on_bt_volume_changed s t v
  | .tuneTimerFire, s => station_tune_timer_fire s

/-- Run a sequence of operations, keeping only the final state. -/
def runStereo : List StereoOp → StereoState → StereoState
  | [], s => s
  | op :: rest, s => runStereo rest (stereoStep op s).1

/-- The operations named by the reachability claim C1: the public entry
points `stereo_state_handle_button`, `stereo_state_set_power`,
`stereo_state_set_mode`, `stereo_state_hfp_call_status` and
`stereo_state_a2dp_streaming` (with `stereo_state_init` as the start state). -/
def isClaimedPublicOp : StereoOp → Bool
  | .handleButton _ _ => true
  | .setPower _ => true
  | .setMode _ => true
  | .hfpCallStatus _ _ => true
  | .a2dpStreaming _ => true
  | .btVolumeChanged _ _ => false
  | .tuneTimerFire => false

/-- Whether an operation is an invocation of `stereo_state_set_mode`. -/
def isSetModeOp : StereoOp → Bool
  | .setMode _ => true
  | _ => false

/-- Whether an operation is an asynchronous audio-stack volume-change
notification (`on_bt_volume_changed`). -/
def isBtVolumeChangedOp : StereoOp → Bool
  | .btVolumeChanged _ _ => true
  | _ => false

/-- The power/mode consistency stated by the spec: powered off exactly when
the mode is `Off`. -/
def ModeInvariant (s : StereoState) : Prop :=
  s.powered_on = false ↔ s.current_mode = .off

/-- The inductive strengthening of `ModeInvariant` needed for preservation:
the recorded pre-call and pre-phonebook modes are never `Off`, so restoring
them after a call cannot turn the mode to `Off` while powered. -/
def StateInv (s : StereoState) : Prop :=
  ModeInvariant s ∧ s.mode_before_call ≠ .off ∧ s.mode_before_phonebook ≠ .off

/-- All four volume fields in the clamped range 0..15. -/
def VolInv (s : StereoState) : Prop :=
  s.radio.volume ≤ 15 ∧ s.a2dp.volume ≤ 15 ∧
  s.hfp.speaker_volume ≤ 15 ∧ s.hfp.mic_volume ≤ 15

instance (s : StereoState) : Decidable (VolInv s) := by
  unfold VolInv
  infer_instance

/-! ## Concrete scenario states and operation sequences -/

/-- An ISR firing that reaches the rotary-turn decode branch: not inside the
debounce window, not the press-at-rest pattern, not the release pattern. -/
def takesDecodeBranch (s : RotaryState) (now : Nat) (sw clk dt : Bool) : Prop :=
  ¬ (now - s.last_rotary_time < ROTARY_DEBOUNCE_MS) ∧
  ¬ (sw = false ∧ clk = true ∧ dt = true) ∧
  ¬ (sw = true ∧ s.rotary_pressed = true ∧ clk = true ∧ dt = true)

instance (s : RotaryState) (now : Nat) (sw clk dt : Bool) :
    Decidable (takesDecodeBranch s now sw clk dt) := by
  unfold takesDecodeBranch
  infer_instance

/-- A decoder state with one accumulated sub-detent step and the encoder at
rest (`ENC_STATE_11`), reachable from reset via a single CW decode step. -/
def c8CexState : RotaryState :=
  { last_rotary_time := 0
    rotary_press_start := 0
    rotary_pressed := false
    long_press_sent := false
    encoder_state := 3
    encoder_position := 1 }

/-- A decoder state at the start of a continuous press of the encoder button
(press recorded at tick 0, long press not yet signalled). -/
def c6PressState : RotaryState :=
  { rotaryInitState with rotary_pressed := true }

/-- A powered-on state in an active phone call, with the default volumes
(A2DP 10, HFP speaker 12) established by `stereo_state_init`. -/
def c3CallState : StereoState :=
  { stereo_state_init with powered_on := true, current_mode := .phoneCall }

/-- A powered-on Radio-mode state. -/
def radioOnState : StereoState :=
  { stereo_state_init with powered_on := true, current_mode := .radio }

/-- A powered-on Radio-mode state with the radio volume at the clamp
ceiling 15. -/
def volume15State : StereoState :=
  { stereo_state_init with powered_on := true, current_mode := .radio,
                           radio.volume := 15 }

/-- Three consecutive clockwise rotate events. -/
def threeCW : List StereoOp :=
  [.handleButton true ⟨.rotary, .rotaryCW⟩,
   .handleButton true ⟨.rotary, .rotaryCW⟩,
   .handleButton true ⟨.rotary, .rotaryCW⟩]

/-- The C7 scenario: enter station browsing (rotary release), three CW
rotations, toggle browsing off (rotary release), then the pending commit
timer fires. -/
def browseToggleOps : List StereoOp :=
  [.handleButton true ⟨.rotary, .release⟩,
   .handleButton true ⟨.rotary, .rotaryCW⟩,
   .handleButton true ⟨.rotary, .rotaryCW⟩,
   .handleButton true ⟨.rotary, .rotaryCW⟩,
   .handleButton true ⟨.rotary, .release⟩,
   .tuneTimerFire]

/-! ## Theorems -/

/-- C2: for every sequence of raw ADC sample values, `adc_read_button`
returns `BTN_NONE`: the early return before the threshold-matching loop is
reachable unconditionally, so no ADC-ladder button ever resolves to a
pressed identity. -/
theorem C2_adc_read_button_always_none (reads : List (Option Nat)) :
    adc_read_button reads = ButtonId.noButton := by
  simp [adc_read_button]

/-- C10: calling `stereo_state_set_power` with the current power value is a
complete no-op: the state is returned unchanged and no persistence write,
display notification or mode-change callback effect is produced. -/
theorem C10_set_power_idempotent (b : Bool) (s : StereoState)
    (h : b = s.powered_on) :
    stereo_state_set_power b s = (s, []) := by
  unfold stereo_state_set_power
  simp [h]

/-- Witness for C10 at the initial (powered-off) state. -/
theorem C10_set_power_idempotent_witness :
    (false = stereo_state_init.powered_on) ∧
    stereo_state_set_power false stereo_state_init = (stereo_state_init, []) :=
  ⟨rfl, C10_set_power_idempotent false stereo_state_init rfl⟩

/-- C9 counterexample: a voice-assistant start press while powered off
(initial state: mode `Off`) returns the state unchanged with an EMPTY effect
list — in particular no display notification is produced, contradicting the
claim that the rejection produces a user-visible failure notice. -/
theorem C9_counterexample :
    stereo_state_handle_button true ⟨.bandUM, .press⟩ stereo_state_init =
      (stereo_state_init, []) := by
  rfl

/-- C9 (amended): a voice-assistant start press made while a session is
already active, or while the mode is not Radio or Bluetooth (including
powered off, where the mode is `Off`), is rejected as a no-op that changes
no state and produces NO effect at all — no display notification (the source
only logs); the user-visible failure notice exists only on the separate path
where the mode is valid but the audio-stack start call itself fails. -/
theorem C9_voice_start_reject_silent (s : StereoState) (ext_ok : Bool)
    (h : s.voice_recognition_active = true ∨
         (s.current_mode ≠ .bluetooth ∧ s.current_mode ≠ .radio)) :
    stereo_state_handle_button ext_ok ⟨.bandUM, .press⟩ s = (s, []) := by
  unfold stereo_state_handle_button
  rcases h with h | ⟨h1, h2⟩
  · simp [h]
  · simp [h1, h2]

/-- Witness for C9 at the initial powered-off state. -/
theorem C9_voice_start_reject_silent_witness :
    (stereo_state_init.voice_recognition_active = true ∨
      (stereo_state_init.current_mode ≠ .bluetooth ∧
       stereo_state_init.current_mode ≠ .radio)) ∧
    stereo_state_handle_button true ⟨.bandUM, .press⟩ stereo_state_init =
      (stereo_state_init, []) :=
  ⟨Or.inr ⟨by decide, by decide⟩,
   C9_voice_start_reject_silent stereo_state_init true (Or.inr ⟨by decide, by decide⟩)⟩

/-- C3: evaluation of the phone-call rotate handler at the failing input
(PhoneCall mode, A2DP volume 10, HFP speaker volume 12, one `RotateCW`).
The code increments `g_a2dp_state.volume` to 11, leaves the HFP speaker
volume at 12, and forwards the UNCHANGED speaker volume 12 to the HFP
speaker-volume call — not an incremented speaker volume, as the claim
states. -/
theorem C3_phone_call_rotate_evaluation :
    (stereo_state_handle_button true ⟨.rotary, .rotaryCW⟩ c3CallState).1.a2dp.volume = 11 ∧
    (stereo_state_handle_button true ⟨.rotary, .rotaryCW⟩ c3CallState).1.hfp.speaker_volume = 12 ∧
    (stereo_state_handle_button true ⟨.rotary, .rotaryCW⟩ c3CallState).2 =
      [Effect.display ⟨.volume, "11", "Call Volume", 1000, 200⟩,
       Effect.setHfpSpeakerVolume 12] :=
  ⟨rfl, rfl, rfl⟩

/-- The diagonal of the Gray-code transition table is all zeroes: a repeated
state lookup contributes no movement. -/
theorem rotary_dir_diag (p : Fin 4) : rotary_dir p p = 0 := by
  fin_cases p <;> decide

/-- An ISR firing that reaches the decode branch always stores the decoded
2-bit phase pair as the new encoder state. -/
theorem isr_decode_encoder_state (s : RotaryState) (now : Nat) (sw clk dt : Bool)
    (h : takesDecodeBranch s now sw clk dt) :
    (rotary_encoder_isr s now sw clk dt).1.encoder_state = encodePhase clk dt := by
  obtain ⟨h1, h2, h3⟩ := h
  unfold rotary_encoder_isr
  rw [if_neg h1, if_neg h2, if_neg h3]
  dsimp only
  split_ifs <;> rfl

/-- C8 counterexample: from the (reachable) decoder state with accumulator 1
and encoder state `11`, two consecutive ISR firings that both read the phase
pair `11` change the accumulator from 1 to 0: the first is a no-movement
decode, but the second is captured by the press-at-rest branch (switch line
low), which resets `g_encoder_position` to 0.  The claim as stated —
quantified over all ISR firings reading the same pair — is therefore
false. -/
theorem C8_counterexample :
    c8CexState.encoder_position = 1 ∧
    (rotary_encoder_isr c8CexState 100 true true true).1.encoder_position = 1 ∧
    (rotary_encoder_isr (rotary_encoder_isr c8CexState 100 true true true).1
        200 false true true).1.encoder_position = 0 := by
  decide

/-- C8 (amended): for every encoder state, if an ISR firing takes the
rotary-turn decode branch (storing the read phase pair as the new encoder
state) and the next firing reads the same phase pair without being captured
by the press or release branches, then the second firing leaves the rotation
accumulator unchanged — the transition table's diagonal entries are all
no-movement.  (Firings captured by the push-button branches can still reset
the accumulator, as the counterexample shows.) -/
theorem C8_repeated_pair_decode_idempotent (s : RotaryState) (t1 t2 : Nat)
    (sw1 sw2 clk dt : Bool)
    (h1 : takesDecodeBranch s t1 sw1 clk dt)
    (h2 : ¬ (sw2 = false ∧ clk = true ∧ dt = true))
    (h3 : ¬ (sw2 = true ∧
             (rotary_encoder_isr s t1 sw1 clk dt).1.rotary_pressed = true ∧
             clk = true ∧ dt = true)) :
    (rotary_encoder_isr (rotary_encoder_isr s t1 sw1 clk dt).1 t2 sw2 clk dt).1.encoder_position =
      (rotary_encoder_isr s t1 sw1 clk dt).1.encoder_position := by
  have hstate := isr_decode_encoder_state s t1 sw1 clk dt h1
  generalize hgen : (rotary_encoder_isr s t1 sw1 clk dt).1 = s1 at *
  unfold rotary_encoder_isr
  by_cases hdeb : t2 - s1.last_rotary_time < ROTARY_DEBOUNCE_MS
  · rw [if_pos hdeb]
  · rw [if_neg hdeb, if_neg h2, if_neg h3]
    simp only [hstate, rotary_dir_diag]
    simp

/-- Witness for C8 (amended): from the reset state, a decode of phase pair
`01` (one CW sub-detent) followed by a second firing reading the same pair
leaves the accumulator at 1. -/
theorem C8_repeated_pair_decode_idempotent_witness :
    takesDecodeBranch rotaryInitState 100 true false true ∧
    ¬ ((true : Bool) = false ∧ (false : Bool) = true ∧ (true : Bool) = true) ∧
    ¬ ((true : Bool) = true ∧
       (rotary_encoder_isr rotaryInitState 100 true false true).1.rotary_pressed = true ∧
       (false : Bool) = true ∧ (true : Bool) = true) ∧
    (rotary_encoder_isr (rotary_encoder_isr rotaryInitState 100 true false true).1
        200 true false true).1.encoder_position =
      (rotary_encoder_isr rotaryInitState 100 true false true).1.encoder_position :=
  ⟨by decide, by decide, by decide,
   C8_repeated_pair_decode_idempotent rotaryInitState 100 200 true true false true
     (by decide) (by decide) (by decide)⟩

/-- The long-press budget never exceeds 1. -/
theorem lpBudget_le_one (s : RotaryState) : lpBudget s ≤ 1 := by
  unfold lpBudget
  split <;> omega

/-- Accounting for one rotary-module step: the long-press events it emits
plus the budget it leaves never exceed the press-start grant plus the budget
it started with.  (Only the monitor emits `LongPress`, only when the budget
is 1, and doing so zeroes the budget; only the ISR press-start branch
restores the budget.) -/
theorem isr_no_long_press (s : RotaryState) (now : Nat) (sw clk dt : Bool) :
    countLongPress (rotary_encoder_isr s now sw clk dt).2 = 0 := by
  unfold rotary_encoder_isr
  (repeat' split) <;> simp [countLongPress] <;> (repeat' split) <;> simp

/-- The ISR can only increase the long-press budget through its press-start
branch. -/
theorem isr_budget_bound (s : RotaryState) (now : Nat) (sw clk dt : Bool) :
    lpBudget (rotary_encoder_isr s now sw clk dt).1 ≤
      (if isrPressStart s (RotaryAction.isr now sw clk dt) then 1 else 0) +
        lpBudget s := by
  by_cases hdeb : now - s.last_rotary_time < ROTARY_DEBOUNCE_MS
  · unfold rotary_encoder_isr
    rw [if_pos hdeb]
    exact Nat.le_add_left _ _
  · by_cases hpress : sw = false ∧ clk = true ∧ dt = true
    · by_cases hp : s.rotary_pressed
      · unfold rotary_encoder_isr
        rw [if_neg hdeb, if_pos hpress, if_pos hp]
        exact Nat.le_add_left _ _
      · unfold rotary_encoder_isr
        rw [if_neg hdeb, if_pos hpress, if_neg hp]
        have hps : isrPressStart s (RotaryAction.isr now sw clk dt) = true := by
          simp [isrPressStart, hdeb, hpress.1, hpress.2.1, hpress.2.2, hp]
        rw [hps]
        simp [lpBudget]
    · by_cases hrel : sw = true ∧ s.rotary_pressed = true ∧ clk = true ∧ dt = true
      · unfold rotary_encoder_isr
        rw [if_neg hdeb, if_neg hpress, if_pos hrel]
        by_cases hd1 : LONG_PRESS_THRESHOLD_MS ≤ now - s.rotary_press_start
        · rw [if_pos hd1]
          simp [lpBudget]
        · rw [if_neg hd1]
          by_cases hd2 : DEBOUNCE_MS < now - s.rotary_press_start
          · rw [if_pos hd2]
            simp [lpBudget]
          · rw [if_neg hd2]
            simp [lpBudget]
      · unfold rotary_encoder_isr
        rw [if_neg hdeb, if_neg hpress, if_neg hrel]
        by_cases hdir : rotary_dir s.encoder_state (encodePhase clk dt) ≠ 0
        · rw [if_pos hdir]
          by_cases h2 : 2 ≤ s.encoder_position + rotary_dir s.encoder_state (encodePhase clk dt)
          · rw [if_pos h2]
            exact Nat.le_add_left _ _
          · rw [if_neg h2]
            by_cases h3 : s.encoder_position + rotary_dir s.encoder_state (encodePhase clk dt) ≤ -2
            · rw [if_pos h3]
              exact Nat.le_add_left _ _
            · rw [if_neg h3]
              exact Nat.le_add_left _ _
        · rw [if_neg hdir]
          exact Nat.le_add_left _ _

theorem rotaryStep_lp_bound (s : RotaryState) (a : RotaryAction) :
    countLongPress (rotaryStep s a).2 + lpBudget (rotaryStep s a).1 ≤
      (if isrPressStart s a then 1 else 0) + lpBudget s := by
  cases a with
  | isr now sw clk dt =>
    have h1 := isr_no_long_press s now sw clk dt
    have h2 := isr_budget_bound s now sw clk dt
    simp only [rotaryStep] at *
    omega
  | monitor now =>
    cases hp : s.rotary_pressed <;> cases hl : s.long_press_sent <;>
      simp [rotaryStep, button_long_press_monitor_check, isrPressStart,
            lpBudget, countLongPress, hp, hl] <;>
      split_ifs <;> simp_all

/-- Along any interleaving of ISR firings and monitor checks, the number of
emitted long-press events is bounded by the number of press starts plus the
initial budget. -/
theorem runRotary_lp_bound (acts : List RotaryAction) (s : RotaryState) :
    countLongPress (runRotary s acts).2 ≤ countPressStarts s acts + lpBudget s := by
  induction acts generalizing s with
  | nil => simp [runRotary, countLongPress]
  | cons a rest ih =>
    have hstep := rotaryStep_lp_bound s a
    have hrest := ih (rotaryStep s a).1
    simp only [runRotary, countPressStarts]
    unfold countLongPress at *
    simp only [List.countP_append]
    split_ifs at hstep ⊢ <;> omega

/-- C6: during any span of execution in which the ISR press-start branch
does not activate — in particular throughout one continuous press of the
encoder button, from its press start to its release — at most one
`LongPress` event is emitted in total, across both the edge-driven ISR path
and the periodic long-press monitor, because the `g_long_press_sent` latch
is only reset at the next press start. -/
theorem C6_long_press_at_most_once (s : RotaryState) (acts : List RotaryAction)
    (h : countPressStarts s acts = 0) :
    countLongPress (runRotary s acts).2 ≤ 1 := by
  have hb := runRotary_lp_bound acts s
  have hb1 := lpBudget_le_one s
  omega

/-- Witness for C6: a freshly pressed encoder button monitored twice past
the threshold emits exactly one long press. -/
theorem C6_long_press_at_most_once_witness :
    countPressStarts c6PressState [RotaryAction.monitor 1000, RotaryAction.monitor 1100] = 0 ∧
    countLongPress (runRotary c6PressState
        [RotaryAction.monitor 1000, RotaryAction.monitor 1100]).2 ≤ 1 :=
  ⟨by decide, C6_long_press_at_most_once c6PressState
      [RotaryAction.monitor 1000, RotaryAction.monitor 1100] (by decide)⟩

/-- C4: an incoming-call notification while powered off (mode `Off`) with a
stale recorded pre-call mode `Radio` powers the system on into `PhoneCall`
mode, leaves the recorded pre-call mode at `Radio` (the auto-power-on path
does not overwrite it, so it is not `Off`), and a subsequent call-end
notification restores the mode to `Radio`. -/
theorem C4_incoming_call_powers_on (s : StereoState) (cid cid2 : Option String)
    (h1 : s.powered_on = false) (h2 : s.current_mode = .off)
    (h3 : s.mode_before_call = .radio) :
    (stereo_state_hfp_call_status true cid s).1.powered_on = true ∧
    (stereo_state_hfp_call_status true cid s).1.current_mode = .phoneCall ∧
    (stereo_state_hfp_call_status true cid s).1.mode_before_call = .radio ∧
    (stereo_state_hfp_call_status false cid2
        (stereo_state_hfp_call_status true cid s).1).1.current_mode = .radio := by
  unfold stereo_state_hfp_call_status auto_power_on_if_off
  simp [h1, h2, h3]

/-- Witness for C4 at the initial state with a concrete caller id. -/
theorem C4_incoming_call_powers_on_witness :
    (stereo_state_init.powered_on = false ∧ stereo_state_init.current_mode = .off ∧
      stereo_state_init.mode_before_call = .radio) ∧
    (stereo_state_hfp_call_status true (some "caller") stereo_state_init).1.powered_on = true ∧
    (stereo_state_hfp_call_status true (some "caller") stereo_state_init).1.current_mode = .phoneCall ∧
    (stereo_state_hfp_call_status true (some "caller") stereo_state_init).1.mode_before_call = .radio ∧
    (stereo_state_hfp_call_status false none
        (stereo_state_hfp_call_status true (some "caller") stereo_state_init).1).1.current_mode = .radio :=
  ⟨⟨rfl, rfl, rfl⟩,
   C4_incoming_call_powers_on stereo_state_init (some "caller") none rfl rfl rfl⟩

set_option maxHeartbeats 1000000 in
/-- C7: from any Radio-mode state not already browsing, entering station
browsing, rotating three clicks clockwise, toggling browsing back off before
the commit delay elapses, and then letting the commit timer fire leaves the
tuned frequency unchanged: the commit is a no-op because
`g_browsing_stations` is false at fire time. -/
theorem C7_browse_cancel_no_tune (s : StereoState)
    (h1 : s.current_mode = .radio) (h2 : s.browsing_stations = false) :
    (runStereo browseToggleOps s).radio.frequency = s.radio.frequency := by
  simp [browseToggleOps, runStereo, stereoStep, stereo_state_handle_button,
        handle_radio_mode, stationIndex, start_station_tune_timer,
        station_tune_timer_fire, h1, h2]

/-- Witness for C7 in the powered-on Radio state at the default 87.5 MHz. -/
theorem C7_browse_cancel_no_tune_witness :
    (radioOnState.current_mode = .radio ∧ radioOnState.browsing_stations = false) ∧
    (runStereo browseToggleOps radioOnState).radio.frequency = radioOnState.radio.frequency :=
  ⟨⟨rfl, rfl⟩, C7_browse_cancel_no_tune radioOnState rfl rfl⟩

/-- `handle_radio_mode` never changes the power flag, the mode or the
recorded pre-call/pre-phonebook modes. -/
theorem handle_radio_mode_frame (s : StereoState) (e : ButtonEvent) :
    (handle_radio_mode s e).1.powered_on = s.powered_on ∧
    (handle_radio_mode s e).1.current_mode = s.current_mode ∧
    (handle_radio_mode s e).1.mode_before_call = s.mode_before_call ∧
    (handle_radio_mode s e).1.mode_before_phonebook = s.mode_before_phonebook := by
  obtain ⟨b, ev⟩ := e
  cases ev <;>
    simp only [handle_radio_mode, start_station_tune_timer] <;>
    (repeat' split) <;> simp

/-- `handle_bluetooth_mode` never changes the power flag, the mode or the
recorded pre-call/pre-phonebook modes. -/
theorem handle_bluetooth_mode_frame (s : StereoState) (e : ButtonEvent) :
    (handle_bluetooth_mode s e).1.powered_on = s.powered_on ∧
    (handle_bluetooth_mode s e).1.current_mode = s.current_mode ∧
    (handle_bluetooth_mode s e).1.mode_before_call = s.mode_before_call ∧
    (handle_bluetooth_mode s e).1.mode_before_phonebook = s.mode_before_phonebook := by
  obtain ⟨b, ev⟩ := e
  cases ev <;>
    simp only [handle_bluetooth_mode] <;>
    (repeat' split) <;> simp

/-- `handle_phone_call_mode` never changes the power flag or the recorded
pre-call/pre-phonebook modes, and can only change the mode to the recorded
pre-call mode (on the call-ending rotary press). -/
theorem handle_phone_call_mode_frame (s : StereoState) (e : ButtonEvent) :
    (handle_phone_call_mode s e).1.powered_on = s.powered_on ∧
    ((handle_phone_call_mode s e).1.current_mode = s.current_mode ∨
      (handle_phone_call_mode s e).1.current_mode = s.mode_before_call) ∧
    (handle_phone_call_mode s e).1.mode_before_call = s.mode_before_call ∧
    (handle_phone_call_mode s e).1.mode_before_phonebook = s.mode_before_phonebook := by
  obtain ⟨b, ev⟩ := e
  cases ev <;>
    simp only [handle_phone_call_mode] <;>
    (repeat' split) <;> simp

/-- One step of any operation other than `stereo_state_set_mode` preserves
the strengthened power/mode invariant. -/
theorem stereoStep_preserves_inv (op : StereoOp) (s : StereoState)
    (hop : isSetModeOp op = false) (h : StateInv s) :
    StateInv (stereoStep op s).1 := by
  obtain ⟨hm, hbc, hbp⟩ := h
  cases op with
  | handleButton ext_ok e =>
    simp only [stereoStep]
    unfold stereo_state_handle_button
    split_ifs
    all_goals try exact ⟨hm, hbc, hbp⟩
    all_goals try exact ⟨by simp [ModeInvariant], hbc, hbp⟩
    split
    · obtain ⟨f1, f2, f3, f4⟩ := handle_bluetooth_mode_frame s e
      refine ⟨?_, ?_, ?_⟩
      · simp only [ModeInvariant] at hm ⊢
        rw [f1, f2]; exact hm
      · rw [f3]; exact hbc
      · rw [f4]; exact hbp
    · obtain ⟨f1, f2, f3, f4⟩ := handle_radio_mode_frame s e
      refine ⟨?_, ?_, ?_⟩
      · simp only [ModeInvariant] at hm ⊢
        rw [f1, f2]; exact hm
      · rw [f3]; exact hbc
      · rw [f4]; exact hbp
    · rename_i hmode
      obtain ⟨f1, f2, f3, f4⟩ := handle_phone_call_mode_frame s e
      refine ⟨?_, ?_, ?_⟩
      · simp only [ModeInvariant] at hm ⊢
        rw [f1]
        rcases f2 with f2 | f2
        · rw [f2]; exact hm
        · rw [f2]
          constructor
          · intro hpow
            exact absurd (hm.mp hpow) (by simp [hmode])
          · intro hoff
            exact absurd hoff hbc
      · rw [f3]; exact hbc
      · rw [f4]; exact hbp
    · exact ⟨hm, hbc, hbp⟩
    · exact ⟨hm, hbc, hbp⟩
  | setPower b =>
    simp only [stereoStep]
    unfold stereo_state_set_power
    split_ifs with hEq hOn
    · exact ⟨hm, hbc, hbp⟩
    · exact ⟨by simp [ModeInvariant, hOn], hbc, hbp⟩
    · have hb : b = false := by revert hOn; cases b <;> simp
      exact ⟨by simp [ModeInvariant, hb], hbc, hbp⟩
  | setMode m => simp [isSetModeOp] at hop
  | hfpCallStatus a c =>
    simp only [stereoStep, stereo_state_hfp_call_status, auto_power_on_if_off]
    split_ifs <;>
      first
        | exact ⟨hm, hbc, hbp⟩
        | (exfalso; simp_all; done)
        | (refine ⟨?_, ?_, ?_⟩ <;>
            first
              | exact hbc
              | exact hbp
              | (intro hoff; simp_all [ModeInvariant]; done)
              | (constructor <;> (intro hx; simp_all [ModeInvariant]; done)))
  | a2dpStreaming b =>
    simp only [stereoStep, stereo_state_a2dp_streaming, auto_power_on_if_off]
    split_ifs with hS hP hT
    · exact ⟨by simp [ModeInvariant, hP], hbc, hbp⟩
    · exact ⟨hm, hbc, hbp⟩
    · exact ⟨by simp [ModeInvariant], hbc, hbp⟩
    · exact ⟨hm, hbc, hbp⟩
  | btVolumeChanged t v =>
    simp only [stereoStep]
    unfold on_bt_volume_changed
    cases t <;> exact ⟨hm, hbc, hbp⟩
  | tuneTimerFire =>
    simp only [stereoStep]
    unfold station_tune_timer_fire
    split_ifs <;> exact ⟨hm, hbc, hbp⟩

/-- Any sequence of operations not containing `stereo_state_set_mode`
preserves the strengthened power/mode invariant. -/
theorem runStereo_preserves_inv (ops : List StereoOp) (s : StereoState)
    (hops : ∀ op ∈ ops, isSetModeOp op = false) (h : StateInv s) :
    StateInv (runStereo ops s) := by
  induction ops generalizing s with
  | nil => exact h
  | cons op rest ih =>
    exact ih (stereoStep op s).1 (fun o ho => hops o (List.mem_cons_of_mem op ho))
      (stereoStep_preserves_inv op s (hops op (List.mem_cons_self op rest)) h)

/-- C1 counterexample: the claim quantifies over the public operations
including `stereo_state_set_mode`, but `stereo_state_set_mode` changes the
mode without touching the power flag.  One such call from the freshly
initialised (powered-off) state reaches a state with `powered_on = false`
and mode `Radio`, refuting the claimed biconditional. -/
theorem C1_counterexample :
    [StereoOp.setMode .radio].all isClaimedPublicOp = true ∧
    (runStereo [StereoOp.setMode .radio] stereo_state_init).powered_on = false ∧
    (runStereo [StereoOp.setMode .radio] stereo_state_init).current_mode = .radio :=
  ⟨rfl, rfl, rfl⟩

/-- C1 (amended): after any sequence of the claimed public operations
EXCLUDING `stereo_state_set_mode` — i.e. `stereo_state_handle_button`,
`stereo_state_set_power`, `stereo_state_hfp_call_status` and
`stereo_state_a2dp_streaming`, starting from `stereo_state_init` —
`powered_on = false` holds exactly when the mode is `Off`. -/
theorem C1_mode_invariant_no_set_mode (ops : List StereoOp)
    (h : ∀ op ∈ ops, isClaimedPublicOp op = true ∧ isSetModeOp op = false) :
    ((runStereo ops stereo_state_init).powered_on = false ↔
      (runStereo ops stereo_state_init).current_mode = .off) := by
  have hinit : StateInv stereo_state_init := by
    refine ⟨?_, by decide, by decide⟩
    simp [ModeInvariant, stereo_state_init]
  exact (runStereo_preserves_inv ops stereo_state_init
    (fun op hop => (h op hop).2) hinit).1

/-- Witness for C1 (amended): a power-on via `stereo_state_set_power`. -/
theorem C1_mode_invariant_no_set_mode_witness :
    (∀ op ∈ [StereoOp.setPower true],
        isClaimedPublicOp op = true ∧ isSetModeOp op = false) ∧
    ((runStereo [StereoOp.setPower true] stereo_state_init).powered_on = false ↔
      (runStereo [StereoOp.setPower true] stereo_state_init).current_mode = .off) :=
  ⟨by simp [isClaimedPublicOp, isSetModeOp],
   C1_mode_invariant_no_set_mode [StereoOp.setPower true]
     (by simp [isClaimedPublicOp, isSetModeOp])⟩

/-- `handle_radio_mode` keeps every volume field within 0..15. -/
theorem handle_radio_mode_vol (s : StereoState) (e : ButtonEvent)
    (h : VolInv s) : VolInv (handle_radio_mode s e).1 := by
  obtain ⟨h1, h2, h3, h4⟩ := h
  obtain ⟨b, ev⟩ := e
  cases ev <;>
    simp only [handle_radio_mode, start_station_tune_timer] <;>
    (repeat' split) <;>
    exact ⟨by (try dsimp only); omega, by (try dsimp only); omega,
           by (try dsimp only); omega, by (try dsimp only); omega⟩

/-- `handle_bluetooth_mode` keeps every volume field within 0..15. -/
theorem handle_bluetooth_mode_vol (s : StereoState) (e : ButtonEvent)
    (h : VolInv s) : VolInv (handle_bluetooth_mode s e).1 := by
  obtain ⟨h1, h2, h3, h4⟩ := h
  obtain ⟨b, ev⟩ := e
  cases ev <;>
    simp only [handle_bluetooth_mode] <;>
    (repeat' split) <;>
    exact ⟨by (try dsimp only); omega, by (try dsimp only); omega,
           by (try dsimp only); omega, by (try dsimp only); omega⟩

/-- `handle_phone_call_mode` keeps every volume field within 0..15. -/
theorem handle_phone_call_mode_vol (s : StereoState) (e : ButtonEvent)
    (h : VolInv s) : VolInv (handle_phone_call_mode s e).1 := by
  obtain ⟨h1, h2, h3, h4⟩ := h
  obtain ⟨b, ev⟩ := e
  cases ev <;>
    simp only [handle_phone_call_mode] <;>
    (repeat' split) <;>
    exact ⟨by (try dsimp only); omega, by (try dsimp only); omega,
           by (try dsimp only); omega, by (try dsimp only); omega⟩

/-- One step of any operation other than the asynchronous audio-stack
volume-change notification keeps every volume field within 0..15. -/
theorem stereoStep_preserves_vol (op : StereoOp) (s : StereoState)
    (hop : isBtVolumeChangedOp op = false) (h : VolInv s) :
    VolInv (stereoStep op s).1 := by
  cases op with
  | handleButton ext_ok e =>
    simp only [stereoStep]
    unfold stereo_state_handle_button
    split_ifs <;> try exact h
    split
    · exact handle_bluetooth_mode_vol s e h
    · exact handle_radio_mode_vol s e h
    · exact handle_phone_call_mode_vol s e h
    · exact h
    · exact h
  | setPower b =>
    simp only [stereoStep]
    unfold stereo_state_set_power
    split_ifs <;> exact h
  | setMode m =>
    simp only [stereoStep]
    unfold stereo_state_set_mode
    split_ifs <;> exact h
  | hfpCallStatus a c =>
    simp only [stereoStep, stereo_state_hfp_call_status, auto_power_on_if_off]
    split_ifs <;> exact h
  | a2dpStreaming b =>
    simp only [stereoStep, stereo_state_a2dp_streaming, auto_power_on_if_off]
    split_ifs <;> exact h
  | btVolumeChanged t v => simp [isBtVolumeChangedOp] at hop
  | tuneTimerFire =>
    simp only [stereoStep]
    unfold station_tune_timer_fire
    split_ifs <;> exact h

/-- C5 counterexample: the asynchronous audio-stack volume-change
notification assigns the received value with no clamp, so a notification
carrying 16 drives the A2DP volume to 16 > 15, refuting the claim's coverage
of asynchronous volume-change notifications. -/
theorem C5_counterexample :
    VolInv stereo_state_init ∧
    (runStereo [StereoOp.btVolumeChanged .a2dp 16] stereo_state_init).a2dp.volume = 16 ∧
    ¬ VolInv (runStereo [StereoOp.btVolumeChanged .a2dp 16] stereo_state_init) := by
  refine ⟨by decide, rfl, ?_⟩
  intro hv
  have := hv.2.1
  simp [runStereo, stereoStep, on_bt_volume_changed, stereo_state_init] at this

/-- C5 (amended): every volume field stays in 0..15 under every sequence of
button events (including rotate and `Repeat` events) and the other public
operations, starting from any state whose volumes are in range — the
event-handler mutations all clamp; the asynchronous audio-stack
volume-change notification, however, stores its argument unclamped (see the
counterexample).  In particular three consecutive `RotateCW` at volume 15
leave the volume at 15 (see the witness). -/
theorem C5_volumes_clamped (s : StereoState) (ops : List StereoOp)
    (hv : VolInv s) (hops : ∀ op ∈ ops, isBtVolumeChangedOp op = false) :
    VolInv (runStereo ops s) := by
  induction ops generalizing s with
  | nil => exact hv
  | cons op rest ih =>
    exact ih (stereoStep op s).1
      (stereoStep_preserves_vol op s (hops op (List.mem_cons_self op rest)) hv)
      (fun o ho => hops o (List.mem_cons_of_mem op ho))

/-- Witness for C5: with the radio volume at the ceiling 15, three
consecutive clockwise rotations leave every volume in range and the radio
volume exactly at 15. -/
theorem C5_volumes_clamped_witness :
    VolInv volume15State ∧
    (∀ op ∈ threeCW, isBtVolumeChangedOp op = false) ∧
    VolInv (runStereo threeCW volume15State) ∧
    (runStereo threeCW volume15State).radio.volume = 15 :=
  ⟨by decide, by decide,
   C5_volumes_clamped volume15State threeCW (by decide) (by decide), rfl⟩

end CarStereo
